import Mathlib

/-!
Shallow embedding of the Consul token reconciliation module
(`plugins/modules/clustering/consul/consul_token.py`).

JSON documents are modelled by the inductive `Json`; a Python dict is a
`Json.obj` over an association list with pairwise-distinct keys (Python
dicts cannot hold duplicate keys; lookups here take the first match).
The HTTP transport is an oracle `Net : Request → HttpResponse`; every
operation returns the list of requests it issued together with its
result, and Python exceptions are modelled by `Except Err`.
-/

/-- JSON values, as produced by `response.json()` and consumed by the module. -/
inductive Json where
  | null
  | bool (b : Bool)
  | str (s : String)
  | num (n : Int)
  | arr (xs : List Json)
  | obj (kvs : List (String × Json))
deriving Repr

/-- First-match lookup in an association list, modelling a Python dict lookup
(dicts have unique keys, so first-match agrees with Python). -/
def jlookup (k : String) : List (String × Json) → Option Json
  | [] => none
  | (k', v) :: rest => if k' = k then some v else jlookup k rest

/-- Every key of `b` also occurs in `a` (helper for Python dict equality). -/
def keysIncluded (b a : List (String × Json)) : Bool :=
  b.all (fun p => (jlookup p.1 a).isSome)

mutual

/-- Python `==` on JSON values: dicts compare as unordered key-value maps,
lists compare elementwise, scalars by value. -/
def pyEq : Json → Json → Bool
  | .null, .null => true
  | .bool a, .bool b => a == b
  | .str a, .str b => a == b
  | .num a, .num b => a == b
  | .arr a, .arr b => pyEqList a b
  | .obj a, .obj b => pyEqObj a b && keysIncluded b a
  | _, _ => false

/-- Elementwise Python `==` on lists. -/
def pyEqList : List Json → List Json → Bool
  | [], [] => true
  | x :: xs, y :: ys => pyEq x y && pyEqList xs ys
  | _, _ => false

/-- Every key of the first dict maps to a `pyEq`-equal value in the second. -/
def pyEqObj : List (String × Json) → List (String × Json) → Bool
  | [], _ => true
  | (k, v) :: rest, b =>
    (match jlookup k b with
     | some w => pyEq v w
     | none => false) && pyEqObj rest b

end

mutual

/-- Python `repr` of a JSON value (containers render their elements;
only used through `pyStr` for `%s` formatting of URL components). -/
def pyRepr : Json → String
  | .null => "None"
  | .bool true => "True"
  | .bool false => "False"
  | .str s => "\x27" ++ s ++ "\x27"
  | .num n => toString n
  | .arr xs => "[" ++ pyReprList xs ++ "]"
  | .obj kvs => "\x7b" ++ pyReprObj kvs ++ "\x7d"

/-- Comma-separated reprs of list elements. -/
def pyReprList : List Json → String
  | [] => ""
  | [x] => pyRepr x
  | x :: xs => pyRepr x ++ ", " ++ pyReprList xs

/-- Comma-separated reprs of dict entries. -/
def pyReprObj : List (String × Json) → String
  | [] => ""
  | [(k, v)] => "\x27" ++ k ++ "\x27: " ++ pyRepr v
  | (k, v) :: rest => "\x27" ++ k ++ "\x27: " ++ pyRepr v ++ ", " ++ pyReprObj rest

end

/-- Python `str()` / `%s` formatting of a JSON value: the identity on strings
(the module only ever formats accessor-id strings into URLs). -/
def pyStr : Json → String
  | .str s => s
  | v => pyRepr v

/-- Python exceptions raised by the module. -/
inductive Err where
  | requestError (status : Nat) (body : Json)
  | keyError (key : String)
  | valueError (msg : String)
  | typeError (msg : String)
  | attributeError (msg : String)
  | indexError
deriving Repr

/-- Python subscript `v[k]`: `KeyError` when the key is absent,
`TypeError` when the value is not a dict. -/
def pySubscript (v : Json) (k : String) : Except Err Json :=
  match v with
  | .obj kvs =>
    match jlookup k kvs with
    | some w => .ok w
    | none => .error (.keyError k)
  | _ => .error (.typeError "object is not subscriptable")

/-- Python subscript on a value already known to be a dict. -/
def dictSubscript (kvs : List (String × Json)) (k : String) : Except Err Json :=
  match jlookup k kvs with
  | some w => .ok w
  | none => .error (.keyError k)

/-- Python `v.get(k, None)`: `None` default on a dict, `AttributeError`
on a non-dict. -/
def pyGet (v : Json) (k : String) : Except Err Json :=
  match v with
  | .obj kvs => .ok ((jlookup k kvs).getD .null)
  | _ => .error (.attributeError "get")

/-- Python `d1.copy()` followed by `.update(d2)`: values of `d2` win on keys
present in both, keys present in only one of the two are kept. -/
def dictUpdate (d1 d2 : List (String × Json)) : List (String × Json) :=
  d1.map (fun p => (p.1, (jlookup p.1 d2).getD p.2)) ++
    d2.filter (fun p => (jlookup p.1 d1).isNone)

/-- Lookup in a dict keyed by JSON values (the token index), with Python
insertion semantics: a later binding of the same key overwrites an earlier
one, hence the last match wins. -/
def pyDictGet (d : List (Json × Json)) (k : Json) : Option Json :=
  d.foldl (fun acc p => if pyEq p.1 k then some p.2 else acc) none

/-- Accumulating decimal value of a digit string; `none` on a non-digit. -/
def digitsVal (cs : List Char) (acc : Nat) : Option Nat :=
  match cs with
  | [] => some acc
  | c :: rest => if c.isDigit then digitsVal rest (acc * 10 + (c.toNat - 48)) else none

/-- Python `int()` on a string: decimal digits with an optional leading sign
(the module only ever applies it to concatenated version components). -/
def pyInt (s : String) : Option Int :=
  match s.data with
  | [] => none
  | '-' :: [] => none
  | '-' :: cs => (digitsVal cs 0).map (fun n => -(n : Int))
  | '+' :: [] => none
  | '+' :: cs => (digitsVal cs 0).map (fun n => (n : Int))
  | cs => (digitsVal cs 0).map (fun n => (n : Int))

/-- ConsulVersion: the three components are kept as strings, exactly as in
the source class. -/
structure ConsulVersion where
  major : String
  minor : String
  patch : String
deriving Repr, DecidableEq

/-- Helper of `splitOnDot`: the second argument accumulates the current
component in reverse. -/
def splitOnDotAux : List Char → List Char → List String
  | [], acc => [String.mk acc.reverse]
  | '.' :: rest, acc => String.mk acc.reverse :: splitOnDotAux rest []
  | c :: rest, acc => splitOnDotAux rest (c :: acc)

/-- Python `version_string.split(".")`: split at every dot; an input without
dots yields one component. -/
def splitOnDot (s : String) : List String :=
  splitOnDotAux s.data []

/-- ConsulVersion constructor: split on dots, take the first three
components, `IndexError` when fewer than three are present. -/
def ConsulVersion.ofString (version_string : String) : Except Err ConsulVersion :=
  match splitOnDot version_string with
  | major :: minor :: patch :: _ => .ok ⟨major, minor, patch⟩
  | _ => .error .indexError

/-- Separator-free concatenation of the three components, as computed inside
the comparison operators. -/
def ConsulVersion.concat (v : ConsulVersion) : String :=
  v.major ++ v.minor ++ v.patch

/-- ConsulVersion `__ge__`: parse each operand's concatenated components as an
integer and compare; `none` models the `ValueError` of a failed `int()`. -/
def ConsulVersion.ge (a b : ConsulVersion) : Option Bool := do
  let x ← pyInt a.concat
  let y ← pyInt b.concat
  pure (decide (x ≥ y))

/-- ConsulVersion `__le__`, same concatenation rule. -/
def ConsulVersion.le (a b : ConsulVersion) : Option Bool := do
  let x ← pyInt a.concat
  let y ← pyInt b.concat
  pure (decide (x ≤ y))

/-- Version-gate comparison as used in statements: a failed `int()` is the
uncaught `ValueError` of the Python operator. -/
def versionGe (a b : ConsulVersion) : Except Err Bool :=
  match ConsulVersion.ge a b with
  | some r => .ok r
  | none => .error (.valueError "invalid literal for int() with base 10")

/-- The literal `ConsulVersion("1.5.0")` constructed in the source. -/
def v_1_5_0 : ConsulVersion := ⟨"1", "5", "0"⟩

/-- The literal `ConsulVersion("1.8.0")` constructed in the source. -/
def v_1_8_0 : ConsulVersion := ⟨"1", "8", "0"⟩

/-- Error message of the ServiceIdentity constructor. -/
def SERVICE_IDENTITY_ERR : String :=
  "Each element of service_identities must be a dict with the keys name and optionally datacenters"

/-- Error message of the NodeIdentity constructor. -/
def NODE_IDENTITY_ERR : String :=
  "Each element of node_identities must be a dict with the keys name and optionally datacenter"

/-- PolicyLink: id and name both default to `None` when absent. -/
structure PolicyLink where
  id : Json
  name : Json
deriving Repr

/-- PolicyLink constructor: `dict.get` on both keys, no validation;
`AttributeError` when the input is not a dict. -/
def PolicyLink.ofInput (d : Json) : Except Err PolicyLink :=
  match d with
  | .obj kvs => .ok ⟨(jlookup "id" kvs).getD .null, (jlookup "name" kvs).getD .null⟩
  | _ => .error (.attributeError "get")

/-- PolicyLink wire form. -/
def PolicyLink.to_dict (p : PolicyLink) : Json :=
  .obj [("ID", p.id), ("Name", p.name)]

/-- RoleLink, identical shape to PolicyLink. -/
structure RoleLink where
  id : Json
  name : Json
deriving Repr

/-- RoleLink constructor: `dict.get` on both keys, no validation. -/
def RoleLink.ofInput (d : Json) : Except Err RoleLink :=
  match d with
  | .obj kvs => .ok ⟨(jlookup "id" kvs).getD .null, (jlookup "name" kvs).getD .null⟩
  | _ => .error (.attributeError "get")

/-- RoleLink wire form. -/
def RoleLink.to_dict (r : RoleLink) : Json :=
  .obj [("ID", r.id), ("Name", r.name)]

/-- ServiceIdentity: requires a dict input with a `name` key. -/
structure ServiceIdentity where
  name : Json
  datacenters : Json
deriving Repr

/-- ServiceIdentity constructor: `ValueError` when the input is not a dict
or lacks `name`; `datacenters` defaults to `None`. -/
def ServiceIdentity.ofInput (input : Json) : Except Err ServiceIdentity :=
  match input with
  | .obj kvs =>
    match jlookup "name" kvs with
    | some n => .ok ⟨n, (jlookup "datacenters" kvs).getD .null⟩
    | none => .error (.valueError SERVICE_IDENTITY_ERR)
  | _ => .error (.valueError SERVICE_IDENTITY_ERR)

/-- ServiceIdentity wire form. -/
def ServiceIdentity.to_dict (s : ServiceIdentity) : Json :=
  .obj [("ServiceName", s.name), ("Datacenters", s.datacenters)]

/-- NodeIdentity: requires a dict input with a `name` key. -/
structure NodeIdentity where
  name : Json
  datacenter : Json
deriving Repr

/-- NodeIdentity constructor: `ValueError` when the input is not a dict
or lacks `name`; `datacenter` defaults to `None`. -/
def NodeIdentity.ofInput (input : Json) : Except Err NodeIdentity :=
  match input with
  | .obj kvs =>
    match jlookup "name" kvs with
    | some n => .ok ⟨n, (jlookup "datacenter" kvs).getD .null⟩
    | none => .error (.valueError NODE_IDENTITY_ERR)
  | _ => .error (.valueError NODE_IDENTITY_ERR)

/-- NodeIdentity wire form. -/
def NodeIdentity.to_dict (n : NodeIdentity) : Json :=
  .obj [("NodeName", n.name), ("Datacenter", n.datacenter)]

/-- Configuration object of the module. The field `local_` embeds the Python
attribute `local` (a Lean keyword); `version` is assigned by `main` after
version negotiation, the placeholder is never read before that. -/
structure Configuration where
  management_token : Option String
  host : String
  port : Int
  scheme : String
  validate_certs : Bool
  id : String
  description : String
  token : Option String
  roles : List RoleLink
  policies : List PolicyLink
  service_identities : List ServiceIdentity
  node_identities : List NodeIdentity
  local_ : Bool
  state : String
  version : ConsulVersion
deriving Repr

/-- Raw module parameters, as delivered by the argument layer: the four list
parameters arrive as raw JSON dicts that the Configuration constructor
normalizes. -/
structure Params where
  management_token : Option String
  host : String
  port : Int
  scheme : String
  validate_certs : Bool
  id : String
  description : String
  roles : List Json
  policies : List Json
  service_identities : List Json
  node_identities : List Json
  local_ : Bool
  token : Option String
  state : String

/-- Python list comprehension `[f(x) for x in l]`: elements converted in
order, the first exception propagates. -/
def mapExcept {α β : Type} (f : α → Except Err β) : List α → Except Err (List β)
  | [] => .ok []
  | x :: xs => do
    let y ← f x
    let ys ← mapExcept f xs
    pure (y :: ys)

/-- Configuration constructor: normalizes roles, policies, service identities
and node identities in that order (the order of the assignments in
`Configuration.__init__`), propagating the first constructor exception. -/
def Configuration.ofParams (p : Params) : Except Err Configuration := do
  let roles ← mapExcept RoleLink.ofInput p.roles
  let policies ← mapExcept PolicyLink.ofInput p.policies
  let service_identities ← mapExcept ServiceIdentity.ofInput p.service_identities
  let node_identities ← mapExcept NodeIdentity.ofInput p.node_identities
  pure
    { management_token := p.management_token
      host := p.host
      port := p.port
      scheme := p.scheme
      validate_certs := p.validate_certs
      id := p.id
      description := p.description
      token := p.token
      roles := roles
      policies := policies
      service_identities := service_identities
      node_identities := node_identities
      local_ := p.local_
      state := p.state
      version := ⟨"", "", ""⟩ }

/-- HTTP method of an issued request. -/
inductive Method where
  | get
  | put
  | delete
deriving Repr, DecidableEq

/-- One HTTP request issued by the module. -/
structure Request where
  method : Method
  url : String
  headers : List (String × String)
  body : Option Json
deriving Repr

/-- HTTP response delivered by the transport. -/
structure HttpResponse where
  status : Nat
  body : Json
deriving Repr

/-- Transport oracle: the response the environment gives to each request. -/
abbrev Net := Request → HttpResponse

/-- State and operation constants of the module. -/
def PRESENT_STATE_VALUE : String := "present"

/-- State value requesting token removal. -/
def ABSENT_STATE_VALUE : String := "absent"

/-- Operation name reported by the remove path. -/
def REMOVE_OPERATION : String := "remove"

/-- Operation name reported by the update path. -/
def UPDATE_OPERATION : String := "update"

/-- Operation name reported by the create path. -/
def CREATE_OPERATION : String := "create"

/-- Module outcome (`Output` class). -/
structure Output where
  changed : Bool
  operation : String
  token : Option Json
deriving Repr

/-- Base URL `scheme://host:port/v1`. -/
def get_consul_url (configuration : Configuration) : String :=
  configuration.scheme ++ "://" ++ configuration.host ++ ":" ++
    toString configuration.port ++ "/v1"

/-- Auth headers: the management token when configured, nothing otherwise. -/
def get_auth_headers (configuration : Configuration) : List (String × String) :=
  match configuration.management_token with
  | none => []
  | some t => [("X-Consul-Token", t)]

/-- RequestError on any status in [400, 600). -/
def handle_consul_response_error (response : HttpResponse) : Except Err Unit :=
  if 400 ≤ response.status ∧ response.status < 600 then
    .error (.requestError response.status response.body)
  else .ok ()

/-- SecretID wire value of the optional `token` parameter. -/
def jsonOfOptStr : Option String → Json
  | some s => .str s
  | none => .null

/-- Update request body: Description, Policies, Roles, Local, then
ServiceIdentities gated on version ≥ 1.5.0 and NodeIdentities gated on
version ≥ 1.8.0. -/
def update_token_data (configuration : Configuration) : Except Err (List (String × Json)) := do
  let d := [("Description", Json.str configuration.description),
            ("Policies", Json.arr (configuration.policies.map PolicyLink.to_dict)),
            ("Roles", Json.arr (configuration.roles.map RoleLink.to_dict)),
            ("Local", Json.bool configuration.local_)]
  let d := if (← versionGe configuration.version v_1_5_0) then
      d ++ [("ServiceIdentities", Json.arr (configuration.service_identities.map ServiceIdentity.to_dict))]
    else d
  let d := if (← versionGe configuration.version v_1_8_0) then
      d ++ [("NodeIdentities", Json.arr (configuration.node_identities.map NodeIdentity.to_dict))]
    else d
  pure d

/-- Create request body: AccessorID, Description, SecretID, Policies, Roles,
Local, then the same two version-gated fields. -/
def create_token_data (configuration : Configuration) : Except Err (List (String × Json)) := do
  let d := [("AccessorID", Json.str configuration.id),
            ("Description", Json.str configuration.description),
            ("SecretID", jsonOfOptStr configuration.token),
            ("Policies", Json.arr (configuration.policies.map PolicyLink.to_dict)),
            ("Roles", Json.arr (configuration.roles.map RoleLink.to_dict)),
            ("Local", Json.bool configuration.local_)]
  let d := if (← versionGe configuration.version v_1_5_0) then
      d ++ [("ServiceIdentities", Json.arr (configuration.service_identities.map ServiceIdentity.to_dict))]
    else d
  let d := if (← versionGe configuration.version v_1_8_0) then
      d ++ [("NodeIdentities", Json.arr (configuration.node_identities.map NodeIdentity.to_dict))]
    else d
  pure d

/-- Change detection of `update_token`, with Python's left-to-right
short-circuit evaluation of the `or` chain: Description and Local are read
by direct subscript, the four list fields by null-defaulting `get`. -/
def computeChanged (token : List (String × Json)) (resulting_token : Json) : Except Err Bool := do
  let d1 ← dictSubscript token "Description"
  let d2 ← pySubscript resulting_token "Description"
  if !pyEq d1 d2 then return true
  let l1 ← dictSubscript token "Local"
  let l2 ← pySubscript resulting_token "Local"
  if !pyEq l1 l2 then return true
  let p2 ← pyGet resulting_token "Policies"
  if !pyEq ((jlookup "Policies" token).getD .null) p2 then return true
  let r2 ← pyGet resulting_token "Roles"
  if !pyEq ((jlookup "Roles" token).getD .null) r2 then return true
  let s2 ← pyGet resulting_token "ServiceIdentities"
  if !pyEq ((jlookup "ServiceIdentities" token).getD .null) s2 then return true
  let n2 ← pyGet resulting_token "NodeIdentities"
  if !pyEq ((jlookup "NodeIdentities" token).getD .null) n2 then return true
  return false

/-- The PUT request issued by `update_token`. -/
def updateRequest (configuration : Configuration) (acc : Json) (dat : List (String × Json)) : Request :=
  ⟨.put, get_consul_url configuration ++ "/acl/token/" ++ pyStr acc,
    get_auth_headers configuration, some (.obj dat)⟩

/-- PUT the update body to the per-token endpoint and compute `changed` by
comparing the merged pre-update view against the response body. -/
def update_token (token : List (String × Json)) (configuration : Configuration) (net : Net) :
    List Request × Except Err Output :=
  match dictSubscript token "AccessorID" with
  | .error e => ([], .error e)
  | .ok acc =>
    match update_token_data configuration with
    | .error e => ([], .error e)
    | .ok dat =>
      let req := updateRequest configuration acc dat
      let response := net req
      match handle_consul_response_error response with
      | .error e => ([req], .error e)
      | .ok _ =>
        let resulting_token := response.body
        match computeChanged token resulting_token with
        | .error e => ([req], .error e)
        | .ok changed => ([req], .ok ⟨changed, UPDATE_OPERATION, some resulting_token⟩)

/-- The PUT request issued by `create_token`. -/
def createRequest (configuration : Configuration) (dat : List (String × Json)) : Request :=
  ⟨.put, get_consul_url configuration ++ "/acl/token",
    get_auth_headers configuration, some (.obj dat)⟩

/-- PUT the create body to the token-creation endpoint; always reports a
change. -/
def create_token (configuration : Configuration) (net : Net) :
    List Request × Except Err Output :=
  match create_token_data configuration with
  | .error e => ([], .error e)
  | .ok dat =>
    let req := createRequest configuration dat
    let response := net req
    match handle_consul_response_error response with
    | .error e => ([req], .error e)
    | .ok _ => ([req], .ok ⟨true, CREATE_OPERATION, some response.body⟩)

/-- Index construction of `get_tokens`: each listed entry is subscripted at
`AccessorID` (a `KeyError` when the key is absent), entries whose accessor id
is `None` are skipped, the rest are keyed by their accessor id. -/
def buildIndex : List Json → Except Err (List (Json × Json))
  | [] => .ok []
  | t :: rest =>
    match t with
    | .obj kvs =>
      match jlookup "AccessorID" kvs with
      | none => .error (.keyError "AccessorID")
      | some .null => buildIndex rest
      | some acc => do
        let idx ← buildIndex rest
        pure ((acc, .obj kvs) :: idx)
    | _ => .error (.typeError "object is not subscriptable")

/-- The GET request issued by `get_tokens`. -/
def listRequest (configuration : Configuration) : Request :=
  ⟨.get, get_consul_url configuration ++ "/acl/tokens",
    get_auth_headers configuration, none⟩

/-- GET the token listing and build the accessor-id index. -/
def get_tokens (configuration : Configuration) (net : Net) :
    List Request × Except Err (List (Json × Json)) :=
  let req := listRequest configuration
  let response := net req
  match handle_consul_response_error response with
  | .error e => ([req], .error e)
  | .ok _ =>
    match response.body with
    | .arr tokens => ([req], buildIndex tokens)
    | _ => ([req], .error (.typeError "object is not iterable"))

/-- The GET request issued by `get_token`. -/
def fetchRequest (configuration : Configuration) (id : Json) : Request :=
  ⟨.get, get_consul_url configuration ++ "/acl/token/" ++ pyStr id,
    get_auth_headers configuration, none⟩

/-- GET the full record of a single token. -/
def get_token (id : Json) (configuration : Configuration) (net : Net) :
    List Request × Except Err Json :=
  let req := fetchRequest configuration id
  let response := net req
  match handle_consul_response_error response with
  | .error e => ([req], .error e)
  | .ok _ => ([req], .ok response.body)

/-- The DELETE request issued by `remove_token`. -/
def deleteRequest (configuration : Configuration) (token_id : Json) : Request :=
  ⟨.delete, get_consul_url configuration ++ "/acl/token/" ++ pyStr token_id,
    get_auth_headers configuration, none⟩

/-- Remove path: list tokens; when the configured id is absent from the index
report no change, otherwise DELETE by the accessor id of the index entry. -/
def remove_token (configuration : Configuration) (net : Net) :
    List Request × Except Err Output :=
  let pair := get_tokens configuration net
  match pair.2 with
  | .error e => (pair.1, .error e)
  | .ok tokens =>
    match pyDictGet tokens (.str configuration.id) with
    | none => (pair.1, .ok ⟨false, REMOVE_OPERATION, none⟩)
    | some entry =>
      match pySubscript entry "AccessorID" with
      | .error e => (pair.1, .error e)
      | .ok token_id =>
        let req := deleteRequest configuration token_id
        let response := net req
        match handle_consul_response_error response with
        | .error e => (pair.1 ++ [req], .error e)
        | .ok _ => (pair.1 ++ [req], .ok ⟨true, REMOVE_OPERATION, none⟩)

/-- Present path: list tokens; when the configured id is present, fetch the
full record, merge it over the index entry and update; otherwise create. -/
def set_token (configuration : Configuration) (net : Net) :
    List Request × Except Err Output :=
  let pair := get_tokens configuration net
  match pair.2 with
  | .error e => (pair.1, .error e)
  | .ok tokens =>
    match pyDictGet tokens (.str configuration.id) with
    | some index_token_object =>
      match pySubscript index_token_object "AccessorID" with
      | .error e => (pair.1, .error e)
      | .ok token_id =>
        let fpair := get_token token_id configuration net
        match fpair.2 with
        | .error e => (pair.1 ++ fpair.1, .error e)
        | .ok rest_token_object =>
          match index_token_object, rest_token_object with
          | .obj a, .obj b =>
            let upair := update_token (dictUpdate a b) configuration net
            (pair.1 ++ fpair.1 ++ upair.1, upair.2)
          | _, _ => (pair.1 ++ fpair.1, .error (.typeError "update argument is not a mapping"))
    | none =>
      let cpair := create_token configuration net
      (pair.1 ++ cpair.1, cpair.2)

/-- The GET request issued by `get_consul_version`. -/
def agentSelfRequest (configuration : Configuration) : Request :=
  ⟨.get, get_consul_url configuration ++ "/agent/self",
    get_auth_headers configuration, none⟩

/-- GET the agent self-description and parse `Config.Version`. -/
def get_consul_version (configuration : Configuration) (net : Net) :
    List Request × Except Err ConsulVersion :=
  let req := agentSelfRequest configuration
  let response := net req
  match handle_consul_response_error response with
  | .error e => ([req], .error e)
  | .ok _ =>
    match pySubscript response.body "Config" with
    | .error e => ([req], .error e)
    | .ok config =>
      match pySubscript config "Version" with
      | .error e => ([req], .error e)
      | .ok vjson =>
        match vjson with
        | .str s => ([req], ConsulVersion.ofString s)
        | _ => ([req], .error (.attributeError "split"))

/-- Result of one module invocation: a normal exit, a `fail_json` with a
message, or an uncaught Python exception. -/
inductive ModuleResult where
  | exitJson (changed : Bool) (operation : String) (token : Option Json)
  | failJson (msg : String)
  | raised (e : Err)
deriving Repr

/-- Main flow: build the Configuration (a `ValueError` becomes a
`Configuration error` failure before any request is issued), negotiate the
remote version, then run the present or absent path. -/
def runMain (p : Params) (net : Net) : List Request × ModuleResult :=
  match Configuration.ofParams p with
  | .error (.valueError m) => ([], .failJson ("Configuration error: " ++ m))
  | .error e => ([], .raised e)
  | .ok c0 =>
    let vpair := get_consul_version c0 net
    match vpair.2 with
    | .error e => (vpair.1, .raised e)
    | .ok v =>
      let configuration := { c0 with version := v }
      let rpair :=
        if configuration.state = PRESENT_STATE_VALUE then set_token configuration net
        else remove_token configuration net
      match rpair.2 with
      | .error e => (vpair.1 ++ rpair.1, .raised e)
      | .ok o => (vpair.1 ++ rpair.1, .exitJson o.changed o.operation o.token)


/-- Index entry contributed by one listed token document, as `get_tokens`
builds it: the entry keyed by a non-null accessor id, nothing for a null
accessor id. Used to state what a successful listing returns. -/
def indexEntry : Json → Option (Json × Json)
  | .obj kvs =>
    match jlookup "AccessorID" kvs with
    | some .null => none
    | some acc => some (acc, .obj kvs)
    | none => none
  | _ => none

/-- An identity input element is well-formed when it is a dict carrying a
`name` key (the condition checked by both identity constructors). -/
def identityInputHasName (j : Json) : Bool :=
  match j with
  | .obj kvs => (jlookup "name" kvs).isSome
  | _ => false

/-- Concrete base configuration for witnesses: id ID-1, empty desired lists,
negotiated version 1.8.0. -/
def cfgBase : Configuration :=
  { management_token := some "mgmt", host := "localhost", port := 8500, scheme := "http",
    validate_certs := true, id := "ID-1", description := "", token := none,
    roles := [], policies := [], service_identities := [], node_identities := [],
    local_ := false, state := "present", version := ⟨"1", "8", "0"⟩ }

/-- Configuration of the create-path witness: one policy link named p1. -/
def cfgC1 : Configuration := { cfgBase with policies := [⟨Json.null, Json.str "p1"⟩] }

/-- Create body produced for `cfgC1`. -/
def datC1 : List (String × Json) :=
  [("AccessorID", .str "ID-1"), ("Description", .str ""), ("SecretID", .null),
   ("Policies", .arr [.obj [("ID", .null), ("Name", .str "p1")]]),
   ("Roles", .arr []), ("Local", .bool false),
   ("ServiceIdentities", .arr []), ("NodeIdentities", .arr [])]

/-- Transport of the create-path witness: empty listing, every other call
answered with a token document. -/
def netC1 : Net := fun r =>
  if r.url = "http://localhost:8500/v1/acl/tokens" then ⟨200, .arr []⟩
  else ⟨200, .obj [("AccessorID", .str "ID-1"), ("SecretID", .str "s3cret")]⟩

/-- Merged-view witness: pre-update token document carrying Description and
Local, matching the update response of `netC3`. -/
def tokC3 : List (String × Json) :=
  [("AccessorID", Json.str "ID-1"), ("Description", Json.str ""), ("Local", Json.bool false)]

/-- Transport of the update-changed witness: the PUT response repeats the
desired state, so nothing differs. -/
def netC3 : Net := fun _ => ⟨200, Json.obj [("Description", Json.str ""), ("Local", Json.bool false)]⟩

/-- Update body produced for `cfgBase`. -/
def datC3 : List (String × Json) :=
  [("Description", .str ""), ("Policies", .arr []), ("Roles", .arr []), ("Local", .bool false),
   ("ServiceIdentities", .arr []), ("NodeIdentities", .arr [])]

/-- Index entry of the merge witness: the partial view lacks Description. -/
def aC4 : List (String × Json) := [("AccessorID", Json.str "ID-1")]

/-- Full single-token fetch of the merge witness: carries Description. -/
def bC4 : List (String × Json) :=
  [("AccessorID", Json.str "ID-1"), ("Description", Json.str "full-desc"), ("Local", Json.bool false)]

/-- Transport of the merge witness: listing returns the partial entry, the
fetch and the update PUT both return the full document. -/
def netC4 : Net := fun r =>
  if r.url = "http://localhost:8500/v1/acl/tokens" then ⟨200, .arr [.obj aC4]⟩
  else ⟨200, .obj bC4⟩

/-- Transport answering every request with an empty token listing. -/
def netC5 : Net := fun _ => ⟨200, Json.arr []⟩

/-- Transport whose listing contains an entry without any accessor id. -/
def netC7 : Net := fun _ => ⟨200, Json.arr [Json.obj [("Description", Json.str "anon")]]⟩

/-- Transport whose listing contains a null-accessor entry followed by a
normal one. -/
def netC7b : Net := fun _ =>
  ⟨200, Json.arr [Json.obj [("AccessorID", Json.null)], Json.obj [("AccessorID", Json.str "A")]]⟩

/-- Concrete base parameters for the validation witnesses. -/
def pBase : Params :=
  { management_token := some "mgmt", host := "localhost", port := 8500, scheme := "http",
    validate_certs := true, id := "ID-1", description := "", roles := [], policies := [],
    service_identities := [], node_identities := [], local_ := false, token := none,
    state := "present" }

/-- Parameters with a service identity lacking a name. -/
def pC8 : Params :=
  { pBase with service_identities := [Json.obj [("datacenters", Json.arr [Json.str "dc1"])]] }

/-- Transport that would answer any request (never reached by the
validation-failure witness). -/
def netNull : Net := fun _ => ⟨200, Json.null⟩

/-- Parameters with a policy link carrying neither id nor name. -/
def pC9 : Params := { pBase with policies := [Json.obj []] }

/-- Transport of the no-validation counterexample, driving the full create
path. -/
def netC9 : Net := fun r =>
  if r.url = "http://localhost:8500/v1/agent/self" then
    ⟨200, Json.obj [("Config", Json.obj [("Version", Json.str "1.8.0")])]⟩
  else if r.url = "http://localhost:8500/v1/acl/tokens" then ⟨200, Json.arr []⟩
  else ⟨200, Json.obj [("AccessorID", Json.str "ID-1")]⟩

/-- Configuration produced from `pC9`: the empty policy link is normalized to
null id and null name, not rejected. -/
def cfgC9 : Configuration :=
  { management_token := some "mgmt", host := "localhost", port := 8500, scheme := "http",
    validate_certs := true, id := "ID-1", description := "", token := none,
    roles := [], policies := [⟨Json.null, Json.null⟩], service_identities := [],
    node_identities := [], local_ := false, state := "present", version := ⟨"", "", ""⟩ }

/-- Merged view of the missing-Local counterexample: no Local key. -/
def tokC10 : List (String × Json) :=
  [("AccessorID", Json.str "ID-1"), ("Description", Json.str "a")]

/-- Transport of the missing-Local counterexample: the PUT response has a
different Description. -/
def netC10 : Net := fun _ =>
  ⟨200, Json.obj [("Description", Json.str "b"), ("Local", Json.bool false)]⟩

/-! Helper lemmas about lookups, request logs and the conditional bodies. -/

theorem jlookup_append (k : String) (a b : List (String × Json)) :
    jlookup k (a ++ b) = match jlookup k a with
      | some v => some v
      | none => jlookup k b := by
  induction a with
  | nil => simp [jlookup]
  | cons p rest ih =>
    obtain ⟨k', v⟩ := p
    by_cases h : k' = k <;> simp [jlookup, h, ih]

theorem jlookup_mapVal (k : String) (l : List (String × Json)) (f : String → Json → Json) :
    jlookup k (l.map (fun p => (p.1, f p.1 p.2))) = (jlookup k l).map (f k) := by
  induction l with
  | nil => simp [jlookup]
  | cons p rest ih =>
    obtain ⟨k', v⟩ := p
    by_cases h : k' = k
    · subst h; simp [jlookup]
    · simp [jlookup, h, ih]

theorem jlookup_filterKey (k : String) (l : List (String × Json)) (p : String → Bool) :
    jlookup k (l.filter (fun x => p x.1)) = if p k then jlookup k l else none := by
  induction l with
  | nil => simp [jlookup]
  | cons x rest ih =>
    obtain ⟨k', v⟩ := x
    by_cases hk : k' = k
    · subst hk
      by_cases hp : p k' <;> simp [List.filter, hp, jlookup, ih]
    · by_cases hp : p k' <;> simp [List.filter, hp, jlookup, hk, ih]

theorem jlookup_dictUpdate (k : String) (a b : List (String × Json)) :
    jlookup k (dictUpdate a b) = match jlookup k b with
      | some v => some v
      | none => jlookup k a := by
  unfold dictUpdate
  rw [jlookup_append, jlookup_mapVal k a (fun key v => (jlookup key b).getD v),
    jlookup_filterKey k b (fun key => (jlookup key a).isNone)]
  cases ha : jlookup k a <;> cases hb : jlookup k b <;> simp [ha, hb]

theorem get_tokens_fst (c : Configuration) (net : Net) :
    (get_tokens c net).1 = [listRequest c] := by
  simp only [get_tokens]
  split
  · rfl
  · split <;> rfl

theorem get_token_fst (id : Json) (c : Configuration) (net : Net) :
    (get_token id c net).1 = [fetchRequest c id] := by
  simp only [get_token]
  split <;> rfl

theorem mapExcept_ok {α β : Type} (f : α → Except Err β) (l : List α)
    (h : ∀ x ∈ l, ∃ y, f x = .ok y) : ∃ ys, mapExcept f l = .ok ys := by
  induction l with
  | nil => exact ⟨[], rfl⟩
  | cons x xs ih =>
    obtain ⟨y, hy⟩ := h x (List.mem_cons_self x xs)
    obtain ⟨ys, hys⟩ := ih (fun z hz => h z (List.mem_cons_of_mem x hz))
    exact ⟨y :: ys, by simp [mapExcept, hy, hys, Bind.bind, Except.bind, Pure.pure, Except.pure]⟩

theorem mapExcept_error {α β : Type} (f : α → Except Err β) (l : List α) (e : Err)
    (hone : ∀ x ∈ l, (∃ y, f x = .ok y) ∨ f x = .error e)
    (h : ∃ x ∈ l, f x = .error e) : mapExcept f l = .error e := by
  induction l with
  | nil =>
    obtain ⟨x, hx, _⟩ := h
    cases hx
  | cons x xs ih =>
    rcases hone x (List.mem_cons_self x xs) with ⟨y, hy⟩ | hx
    · have hxs : ∃ z ∈ xs, f z = .error e := by
        obtain ⟨z, hz, hfz⟩ := h
        rcases List.mem_cons.mp hz with rfl | hz'
        · rw [hy] at hfz; cases hfz
        · exact ⟨z, hz', hfz⟩
      have hrec := ih (fun z hz => hone z (List.mem_cons_of_mem x hz)) hxs
      simp [mapExcept, hy, hrec, Bind.bind, Except.bind, Pure.pure, Except.pure]
    · simp [mapExcept, hx, Bind.bind, Except.bind, Pure.pure, Except.pure]

theorem create_token_data_eq (c : Configuration) (s n : Bool)
    (hs : versionGe c.version v_1_5_0 = .ok s)
    (hn : versionGe c.version v_1_8_0 = .ok n) :
    create_token_data c = .ok
      ([("AccessorID", Json.str c.id), ("Description", Json.str c.description),
        ("SecretID", jsonOfOptStr c.token),
        ("Policies", Json.arr (c.policies.map PolicyLink.to_dict)),
        ("Roles", Json.arr (c.roles.map RoleLink.to_dict)),
        ("Local", Json.bool c.local_)] ++
        (if s then [("ServiceIdentities", Json.arr (c.service_identities.map ServiceIdentity.to_dict))] else []) ++
        (if n then [("NodeIdentities", Json.arr (c.node_identities.map NodeIdentity.to_dict))] else [])) := by
  cases s <;> cases n <;> simp [create_token_data, hs, hn, Bind.bind, Except.bind, Pure.pure, Except.pure]

theorem update_token_data_eq (c : Configuration) (s n : Bool)
    (hs : versionGe c.version v_1_5_0 = .ok s)
    (hn : versionGe c.version v_1_8_0 = .ok n) :
    update_token_data c = .ok
      ([("Description", Json.str c.description),
        ("Policies", Json.arr (c.policies.map PolicyLink.to_dict)),
        ("Roles", Json.arr (c.roles.map RoleLink.to_dict)),
        ("Local", Json.bool c.local_)] ++
        (if s then [("ServiceIdentities", Json.arr (c.service_identities.map ServiceIdentity.to_dict))] else []) ++
        (if n then [("NodeIdentities", Json.arr (c.node_identities.map NodeIdentity.to_dict))] else [])) := by
  cases s <;> cases n <;> simp [update_token_data, hs, hn, Bind.bind, Except.bind, Pure.pure, Except.pure]

theorem computeChanged_eq (token : List (String × Json)) (r : List (String × Json))
    (d1 d2 l1 l2 : Json)
    (hd1 : jlookup "Description" token = some d1) (hd2 : jlookup "Description" r = some d2)
    (hl1 : jlookup "Local" token = some l1) (hl2 : jlookup "Local" r = some l2) :
    computeChanged token (.obj r) = .ok
      (!pyEq d1 d2 || !pyEq l1 l2 ||
       !pyEq ((jlookup "Policies" token).getD .null) ((jlookup "Policies" r).getD .null) ||
       !pyEq ((jlookup "Roles" token).getD .null) ((jlookup "Roles" r).getD .null) ||
       !pyEq ((jlookup "ServiceIdentities" token).getD .null) ((jlookup "ServiceIdentities" r).getD .null) ||
       !pyEq ((jlookup "NodeIdentities" token).getD .null) ((jlookup "NodeIdentities" r).getD .null)) := by
  simp only [computeChanged, dictSubscript, pySubscript, pyGet, hd1, hd2, hl1, hl2,
    Bind.bind, Except.bind]
  cases pyEq d1 d2 <;>
    cases pyEq l1 l2 <;>
      cases pyEq ((jlookup "Policies" token).getD .null) ((jlookup "Policies" r).getD .null) <;>
        cases pyEq ((jlookup "Roles" token).getD .null) ((jlookup "Roles" r).getD .null) <;>
          cases pyEq ((jlookup "ServiceIdentities" token).getD .null)
              ((jlookup "ServiceIdentities" r).getD .null) <;>
            cases pyEq ((jlookup "NodeIdentities" token).getD .null)
                ((jlookup "NodeIdentities" r).getD .null) <;>
              simp [Pure.pure, Except.pure]

theorem update_token_eq (token : List (String × Json)) (c : Configuration) (net : Net)
    (acc : Json) (dat : List (String × Json))
    (hacc : jlookup "AccessorID" token = some acc)
    (hdat : update_token_data c = .ok dat)
    (hst : handle_consul_response_error (net (updateRequest c acc dat)) = .ok ()) :
    update_token token c net = ([updateRequest c acc dat],
      match computeChanged token (net (updateRequest c acc dat)).body with
      | .error e => .error e
      | .ok changed => .ok ⟨changed, UPDATE_OPERATION, some (net (updateRequest c acc dat)).body⟩) := by
  simp only [update_token, dictSubscript, hacc, hdat, hst]
  cases computeChanged token (net (updateRequest c acc dat)).body <;> rfl

theorem computeChanged_missing_desc (token : List (String × Json)) (r' : Json)
    (h : jlookup "Description" token = none) :
    computeChanged token r' = .error (.keyError "Description") := by
  simp [computeChanged, dictSubscript, h, Bind.bind, Except.bind]

theorem computeChanged_missing_desc2 (token r : List (String × Json)) (d1 : Json)
    (hd1 : jlookup "Description" token = some d1)
    (hd2 : jlookup "Description" r = none) :
    computeChanged token (.obj r) = .error (.keyError "Description") := by
  simp [computeChanged, dictSubscript, pySubscript, hd1, hd2, Bind.bind, Except.bind]

theorem computeChanged_desc_differs (token r : List (String × Json)) (d1 d2 : Json)
    (hd1 : jlookup "Description" token = some d1)
    (hd2 : jlookup "Description" r = some d2)
    (hne : pyEq d1 d2 = false) :
    computeChanged token (.obj r) = .ok true := by
  simp [computeChanged, dictSubscript, pySubscript, hd1, hd2, hne,
    Bind.bind, Except.bind, Pure.pure, Except.pure]

theorem computeChanged_missing_local (token r : List (String × Json)) (d1 d2 : Json)
    (hd1 : jlookup "Description" token = some d1)
    (hd2 : jlookup "Description" r = some d2)
    (heq : pyEq d1 d2 = true)
    (hl : jlookup "Local" token = none) :
    computeChanged token (.obj r) = .error (.keyError "Local") := by
  simp [computeChanged, dictSubscript, pySubscript, hd1, hd2, heq, hl,
    Bind.bind, Except.bind, Pure.pure, Except.pure]

theorem create_token_eq (c : Configuration) (net : Net) (dat : List (String × Json))
    (hdat : create_token_data c = .ok dat)
    (hst : handle_consul_response_error (net (createRequest c dat)) = .ok ()) :
    create_token c net = ([createRequest c dat],
      .ok ⟨true, CREATE_OPERATION, some (net (createRequest c dat)).body⟩) := by
  simp only [create_token, hdat, hst]

theorem set_token_create_path (c : Configuration) (net : Net) (tokens : List (Json × Json))
    (hidx : (get_tokens c net).2 = .ok tokens)
    (habs : pyDictGet tokens (.str c.id) = none) :
    set_token c net = ([listRequest c] ++ (create_token c net).1, (create_token c net).2) := by
  simp only [set_token, hidx, habs, get_tokens_fst]

theorem set_token_update_path (c : Configuration) (net : Net) (tokens : List (Json × Json))
    (a b : List (String × Json)) (tid : Json)
    (hidx : (get_tokens c net).2 = .ok tokens)
    (hmem : pyDictGet tokens (.str c.id) = some (.obj a))
    (hacc : jlookup "AccessorID" a = some tid)
    (hfet : (get_token tid c net).2 = .ok (.obj b)) :
    set_token c net = ([listRequest c] ++ [fetchRequest c tid] ++
        (update_token (dictUpdate a b) c net).1,
      (update_token (dictUpdate a b) c net).2) := by
  simp only [set_token, hidx, hmem, pySubscript, hacc, hfet, get_tokens_fst, get_token_fst]

theorem remove_token_absent (c : Configuration) (net : Net) (tokens : List (Json × Json))
    (hidx : (get_tokens c net).2 = .ok tokens)
    (habs : pyDictGet tokens (.str c.id) = none) :
    remove_token c net = ([listRequest c], .ok ⟨false, REMOVE_OPERATION, none⟩) := by
  simp only [remove_token, hidx, habs, get_tokens_fst]

theorem remove_token_present (c : Configuration) (net : Net) (tokens : List (Json × Json))
    (kvs : List (String × Json)) (tid : Json)
    (hidx : (get_tokens c net).2 = .ok tokens)
    (hmem : pyDictGet tokens (.str c.id) = some (.obj kvs))
    (hacc : jlookup "AccessorID" kvs = some tid)
    (hst : handle_consul_response_error (net (deleteRequest c tid)) = .ok ()) :
    remove_token c net = ([listRequest c, deleteRequest c tid],
      .ok ⟨true, REMOVE_OPERATION, none⟩) := by
  simp only [remove_token, hidx, hmem, pySubscript, hacc, hst, get_tokens_fst]
  rfl

theorem buildIndex_eq_filterMap (toks : List Json)
    (hall : ∀ t ∈ toks, ∃ kvs, t = Json.obj kvs ∧ (jlookup "AccessorID" kvs).isSome = true) :
    buildIndex toks = .ok (toks.filterMap indexEntry) := by
  induction toks with
  | nil => rfl
  | cons t rest ih =>
    obtain ⟨kvs, rfl, hsome⟩ := hall _ (List.mem_cons_self _ rest)
    have ihr := ih (fun z hz => hall z (List.mem_cons_of_mem _ hz))
    obtain ⟨acc, hacc⟩ := Option.isSome_iff_exists.mp hsome
    cases acc <;>
      simp [buildIndex, indexEntry, hacc, ihr, Bind.bind, Except.bind, Pure.pure, Except.pure,
        List.filterMap_cons]

theorem si_ofInput_ok (j : Json) (h : identityInputHasName j = true) :
    ∃ y, ServiceIdentity.ofInput j = .ok y := by
  cases j
  case obj kvs =>
    simp only [identityInputHasName] at h
    obtain ⟨v, hv⟩ := Option.isSome_iff_exists.mp h
    exact ⟨⟨v, (jlookup "datacenters" kvs).getD Json.null⟩, by simp [ServiceIdentity.ofInput, hv]⟩
  all_goals simp [identityInputHasName] at h

theorem si_ofInput_err (j : Json) (h : identityInputHasName j = false) :
    ServiceIdentity.ofInput j = .error (.valueError SERVICE_IDENTITY_ERR) := by
  cases j
  case obj kvs =>
    simp only [identityInputHasName] at h
    have hn : jlookup "name" kvs = none := by
      cases hk : jlookup "name" kvs
      · rfl
      · rw [hk] at h; cases h
    simp [ServiceIdentity.ofInput, hn]
  all_goals rfl

theorem ni_ofInput_ok (j : Json) (h : identityInputHasName j = true) :
    ∃ y, NodeIdentity.ofInput j = .ok y := by
  cases j
  case obj kvs =>
    simp only [identityInputHasName] at h
    obtain ⟨v, hv⟩ := Option.isSome_iff_exists.mp h
    exact ⟨⟨v, (jlookup "datacenter" kvs).getD Json.null⟩, by simp [NodeIdentity.ofInput, hv]⟩
  all_goals simp [identityInputHasName] at h

theorem ni_ofInput_err (j : Json) (h : identityInputHasName j = false) :
    NodeIdentity.ofInput j = .error (.valueError NODE_IDENTITY_ERR) := by
  cases j
  case obj kvs =>
    simp only [identityInputHasName] at h
    have hn : jlookup "name" kvs = none := by
      cases hk : jlookup "name" kvs
      · rfl
      · rw [hk] at h; cases h
    simp [NodeIdentity.ofInput, hn]
  all_goals rfl

/-! Claim theorems. -/

/-- C1: on the Present path with a logicalId absent from the remote index,
exactly one PUT goes to the token-creation endpoint, its body carries
AccessorID = id, SecretID = the optional secret seed, Description, Policies,
Roles and Local from the desired state (links rendered as ID/Name with
missing fields null), and the outcome is changed = true, operation create,
token = response body. -/
theorem create_path_put_and_outcome (c : Configuration) (net : Net)
    (tokens : List (Json × Json)) (s n : Bool) (dat : List (String × Json))
    (hs : versionGe c.version v_1_5_0 = .ok s)
    (hn : versionGe c.version v_1_8_0 = .ok n)
    (hidx : (get_tokens c net).2 = .ok tokens)
    (habs : pyDictGet tokens (.str c.id) = none)
    (hdat : create_token_data c = .ok dat)
    (hst : handle_consul_response_error (net (createRequest c dat)) = .ok ()) :
    set_token c net = ([listRequest c, createRequest c dat],
      .ok ⟨true, CREATE_OPERATION, some (net (createRequest c dat)).body⟩) ∧
    [listRequest c, createRequest c dat].countP (fun r => decide (r.method = .put)) = 1 ∧
    (createRequest c dat).url = get_consul_url c ++ "/acl/token" ∧
    jlookup "AccessorID" dat = some (.str c.id) ∧
    jlookup "SecretID" dat = some (jsonOfOptStr c.token) ∧
    jlookup "Description" dat = some (.str c.description) ∧
    jlookup "Policies" dat = some (.arr (c.policies.map PolicyLink.to_dict)) ∧
    jlookup "Roles" dat = some (.arr (c.roles.map RoleLink.to_dict)) ∧
    jlookup "Local" dat = some (.bool c.local_) ∧
    (∀ kvs, PolicyLink.ofInput (.obj kvs) =
      .ok ⟨(jlookup "id" kvs).getD .null, (jlookup "name" kvs).getD .null⟩) ∧
    (∀ p : PolicyLink, p.to_dict = .obj [("ID", p.id), ("Name", p.name)]) ∧
    (∀ kvs, RoleLink.ofInput (.obj kvs) =
      .ok ⟨(jlookup "id" kvs).getD .null, (jlookup "name" kvs).getD .null⟩) ∧
    (∀ r : RoleLink, r.to_dict = .obj [("ID", r.id), ("Name", r.name)]) := by
  have hd := create_token_data_eq c s n hs hn
  rw [hd] at hdat
  injection hdat with hdd
  subst hdd
  refine ⟨?_, ?_, rfl, ?_, ?_, ?_, ?_, ?_, ?_,
    fun kvs => rfl, fun p => rfl, fun kvs => rfl, fun r => rfl⟩
  · rw [set_token_create_path c net tokens hidx habs, create_token_eq c net _ hd hst]
    rfl
  · rfl
  all_goals cases s <;> cases n <;> simp [jlookup_append, jlookup]

theorem create_path_put_and_outcome_witness :
    set_token cfgC1 netC1 = ([listRequest cfgC1, createRequest cfgC1 datC1],
      .ok ⟨true, CREATE_OPERATION,
        some (.obj [("AccessorID", .str "ID-1"), ("SecretID", .str "s3cret")])⟩) ∧
    [listRequest cfgC1, createRequest cfgC1 datC1].countP (fun r => decide (r.method = .put)) = 1 :=
  ⟨(create_path_put_and_outcome cfgC1 netC1 [] true true datC1 rfl rfl rfl rfl rfl rfl).1,
   (create_path_put_and_outcome cfgC1 netC1 [] true true datC1 rfl rfl rfl rfl rfl rfl).2.1⟩

/-- C2: in both the create and the update body, ServiceIdentities is present
exactly when the negotiated version is ≥ 1.5.0 under the module's comparison
and NodeIdentities exactly when it is ≥ 1.8.0; below a threshold the key is
absent altogether; and the concrete gates for versions 1.4.9, 1.5.0 and
1.8.0 evaluate as the concatenation rule dictates. -/
theorem version_gated_identity_fields (c : Configuration) (s n : Bool)
    (hs : versionGe c.version v_1_5_0 = .ok s)
    (hn : versionGe c.version v_1_8_0 = .ok n) :
    (∃ d, create_token_data c = .ok d ∧
      (jlookup "ServiceIdentities" d).isSome = s ∧
      (jlookup "NodeIdentities" d).isSome = n ∧
      (s = true → jlookup "ServiceIdentities" d =
        some (.arr (c.service_identities.map ServiceIdentity.to_dict))) ∧
      (n = true → jlookup "NodeIdentities" d =
        some (.arr (c.node_identities.map NodeIdentity.to_dict)))) ∧
    (∃ d, update_token_data c = .ok d ∧
      (jlookup "ServiceIdentities" d).isSome = s ∧
      (jlookup "NodeIdentities" d).isSome = n ∧
      (s = true → jlookup "ServiceIdentities" d =
        some (.arr (c.service_identities.map ServiceIdentity.to_dict))) ∧
      (n = true → jlookup "NodeIdentities" d =
        some (.arr (c.node_identities.map NodeIdentity.to_dict)))) ∧
    versionGe ⟨"1", "4", "9"⟩ v_1_5_0 = .ok false ∧
    versionGe ⟨"1", "4", "9"⟩ v_1_8_0 = .ok false ∧
    versionGe ⟨"1", "5", "0"⟩ v_1_5_0 = .ok true ∧
    versionGe ⟨"1", "5", "0"⟩ v_1_8_0 = .ok false ∧
    versionGe ⟨"1", "8", "0"⟩ v_1_5_0 = .ok true ∧
    versionGe ⟨"1", "8", "0"⟩ v_1_8_0 = .ok true := by
  refine ⟨⟨_, create_token_data_eq c s n hs hn, ?_, ?_, ?_, ?_⟩,
          ⟨_, update_token_data_eq c s n hs hn, ?_, ?_, ?_, ?_⟩,
          rfl, rfl, rfl, rfl, rfl, rfl⟩ <;>
    cases s <;> cases n <;> simp [jlookup_append, jlookup]

theorem version_gated_identity_fields_witness :
    versionGe ⟨"1", "4", "9"⟩ v_1_5_0 = .ok false ∧
    versionGe ⟨"1", "4", "9"⟩ v_1_8_0 = .ok false ∧
    versionGe ⟨"1", "5", "0"⟩ v_1_5_0 = .ok true ∧
    versionGe ⟨"1", "5", "0"⟩ v_1_8_0 = .ok false ∧
    versionGe ⟨"1", "8", "0"⟩ v_1_5_0 = .ok true ∧
    versionGe ⟨"1", "8", "0"⟩ v_1_8_0 = .ok true ∧
    create_token_data { cfgBase with version := ⟨"1", "4", "9"⟩ } =
      .ok [("AccessorID", Json.str "ID-1"), ("Description", Json.str ""),
           ("SecretID", Json.null), ("Policies", Json.arr []), ("Roles", Json.arr []),
           ("Local", Json.bool false)] := by
  have h := version_gated_identity_fields { cfgBase with version := ⟨"1", "4", "9"⟩ }
    false false rfl rfl
  exact ⟨h.2.2.1, h.2.2.2.1, h.2.2.2.2.1, h.2.2.2.2.2.1, h.2.2.2.2.2.2.1,
    h.2.2.2.2.2.2.2, rfl⟩

/-- C3: when the merged pre-update view and the PUT response both carry the
Description and Local keys, the update outcome is returned and its changed
flag is true exactly when at least one of Description, Local, Policies,
Roles, ServiceIdentities, NodeIdentities differs, the four list fields
compared with a null default for an absent key; the flag is a function of
those six comparisons only. -/
theorem update_changed_iff_fields_differ (token r : List (String × Json))
    (c : Configuration) (net : Net) (acc : Json) (dat : List (String × Json))
    (d1 d2 l1 l2 : Json)
    (hacc : jlookup "AccessorID" token = some acc)
    (hdat : update_token_data c = .ok dat)
    (hst : handle_consul_response_error (net (updateRequest c acc dat)) = .ok ())
    (hbody : (net (updateRequest c acc dat)).body = .obj r)
    (hd1 : jlookup "Description" token = some d1) (hd2 : jlookup "Description" r = some d2)
    (hl1 : jlookup "Local" token = some l1) (hl2 : jlookup "Local" r = some l2) :
    update_token token c net = ([updateRequest c acc dat],
      .ok ⟨(!pyEq d1 d2 || !pyEq l1 l2 ||
        !pyEq ((jlookup "Policies" token).getD .null) ((jlookup "Policies" r).getD .null) ||
        !pyEq ((jlookup "Roles" token).getD .null) ((jlookup "Roles" r).getD .null) ||
        !pyEq ((jlookup "ServiceIdentities" token).getD .null)
          ((jlookup "ServiceIdentities" r).getD .null) ||
        !pyEq ((jlookup "NodeIdentities" token).getD .null)
          ((jlookup "NodeIdentities" r).getD .null)),
        UPDATE_OPERATION, some (.obj r)⟩) := by
  rw [update_token_eq token c net acc dat hacc hdat hst, hbody,
    computeChanged_eq token r d1 d2 l1 l2 hd1 hd2 hl1 hl2]

theorem update_changed_iff_fields_differ_witness :
    update_token tokC3 cfgBase netC3 = ([updateRequest cfgBase (Json.str "ID-1") datC3],
      .ok ⟨false, UPDATE_OPERATION,
        some (.obj [("Description", Json.str ""), ("Local", Json.bool false)])⟩) :=
  update_changed_iff_fields_differ tokC3
    [("Description", Json.str ""), ("Local", Json.bool false)]
    cfgBase netC3 (Json.str "ID-1") datC3 (Json.str "") (Json.str "")
    (Json.bool false) (Json.bool false) rfl rfl rfl rfl rfl rfl rfl rfl

/-- C4: the pre-update baseline is the merge in which the full fetch wins on
every key present in both documents and keys present in only one side are
kept; when the index entry lacks Description, the merged Description is the
full fetch's; and the update path of set_token runs update_token on exactly
this merge. -/
theorem merge_full_record_wins (c : Configuration) (net : Net) (tokens : List (Json × Json))
    (a b : List (String × Json)) (tid : Json)
    (hidx : (get_tokens c net).2 = .ok tokens)
    (hmem : pyDictGet tokens (.str c.id) = some (.obj a))
    (hacc : jlookup "AccessorID" a = some tid)
    (hfet : (get_token tid c net).2 = .ok (.obj b)) :
    (∀ k, jlookup k (dictUpdate a b) = match jlookup k b with
      | some v => some v
      | none => jlookup k a) ∧
    (jlookup "Description" a = none →
      jlookup "Description" (dictUpdate a b) = jlookup "Description" b) ∧
    set_token c net = ([listRequest c] ++ [fetchRequest c tid] ++
        (update_token (dictUpdate a b) c net).1,
      (update_token (dictUpdate a b) c net).2) := by
  refine ⟨fun k => jlookup_dictUpdate k a b, fun h => ?_,
    set_token_update_path c net tokens a b tid hidx hmem hacc hfet⟩
  rw [jlookup_dictUpdate]
  cases hb : jlookup "Description" b <;> simp [h, hb]

theorem merge_full_record_wins_witness :
    jlookup "Description" (dictUpdate aC4 bC4) = jlookup "Description" bC4 ∧
    set_token cfgBase netC4 = ([listRequest cfgBase] ++
        [fetchRequest cfgBase (Json.str "ID-1")] ++
        (update_token (dictUpdate aC4 bC4) cfgBase netC4).1,
      (update_token (dictUpdate aC4 bC4) cfgBase netC4).2) := by
  have h := merge_full_record_wins cfgBase netC4 [(Json.str "ID-1", Json.obj aC4)] aC4 bC4
    (Json.str "ID-1") rfl rfl rfl rfl
  exact ⟨h.2.1 rfl, h.2.2⟩

/-- C5: reconciling Absent lists the tokens; when the id is not a key of the
index the outcome is changed = false with operation remove and no DELETE is
issued; when present, exactly one DELETE goes to the accessor id taken from
the index entry and the outcome is changed = true. -/
theorem absent_presence_reconciliation (c : Configuration) (net : Net)
    (tokens : List (Json × Json))
    (hidx : (get_tokens c net).2 = .ok tokens) :
    (pyDictGet tokens (.str c.id) = none →
      remove_token c net = ([listRequest c], .ok ⟨false, REMOVE_OPERATION, none⟩) ∧
      [listRequest c].countP (fun r => decide (r.method = .delete)) = 0) ∧
    (∀ kvs tid, pyDictGet tokens (.str c.id) = some (.obj kvs) →
      jlookup "AccessorID" kvs = some tid →
      handle_consul_response_error (net (deleteRequest c tid)) = .ok () →
      remove_token c net = ([listRequest c, deleteRequest c tid],
        .ok ⟨true, REMOVE_OPERATION, none⟩) ∧
      [listRequest c, deleteRequest c tid].countP (fun r => decide (r.method = .delete)) = 1 ∧
      (deleteRequest c tid).url = get_consul_url c ++ "/acl/token/" ++ pyStr tid) := by
  refine ⟨fun habs => ⟨remove_token_absent c net tokens hidx habs, rfl⟩,
    fun kvs tid hmem hacc hst =>
      ⟨remove_token_present c net tokens kvs tid hidx hmem hacc hst, rfl, rfl⟩⟩

theorem absent_presence_reconciliation_witness :
    remove_token cfgBase netC5 = ([listRequest cfgBase], .ok ⟨false, REMOVE_OPERATION, none⟩) :=
  ((absent_presence_reconciliation cfgBase netC5 [] rfl).1 rfl).1

/-- C6: the ConsulVersion operators ge and le hold exactly when the integer
parsed from the separator-free concatenation of the first operand's three
components compares accordingly with the one parsed from the second
operand's; in particular 1.10.0 against 1.9.0 compares 1100 with 190. -/
theorem version_compare_concatenation_rule (s t : String) (a b : ConsulVersion) (x y : Int)
    (hsa : ConsulVersion.ofString s = .ok a) (htb : ConsulVersion.ofString t = .ok b)
    (hx : pyInt a.concat = some x) (hy : pyInt b.concat = some y) :
    a.ge b = some (decide (x ≥ y)) ∧ a.le b = some (decide (x ≤ y)) := by
  constructor <;> simp [ConsulVersion.ge, ConsulVersion.le, hx, hy, Bind.bind, Option.bind]

theorem version_compare_concatenation_rule_witness :
    ConsulVersion.ofString "1.10.0" = .ok ⟨"1", "10", "0"⟩ ∧
    (⟨"1", "10", "0"⟩ : ConsulVersion).concat = "1100" ∧
    (⟨"1", "9", "0"⟩ : ConsulVersion).concat = "190" ∧
    ConsulVersion.ge ⟨"1", "10", "0"⟩ ⟨"1", "9", "0"⟩ = some true ∧
    ConsulVersion.le ⟨"1", "10", "0"⟩ ⟨"1", "9", "0"⟩ = some false := by
  have h := version_compare_concatenation_rule "1.10.0" "1.9.0" ⟨"1", "10", "0"⟩
    ⟨"1", "9", "0"⟩ 1100 190 rfl rfl rfl rfl
  exact ⟨rfl, rfl, rfl, h.1, h.2⟩

/-- C7 counterexample: a listing entry without any AccessorID key makes
get_tokens fail with a KeyError instead of being skipped. -/
theorem get_tokens_missing_accessor_raises :
    (get_tokens cfgBase netC7).2 = .error (.keyError "AccessorID") := rfl

/-- C7 amended: when every listed entry is a dict that carries the AccessorID
key, get_tokens succeeds and returns the index of all entries whose accessor
id is non-null; an entry with a null accessor id contributes nothing and a
non-null one is keyed by its accessor id. -/
theorem get_tokens_skips_null_accessors (c : Configuration) (net : Net) (toks : List Json)
    (hst : handle_consul_response_error (net (listRequest c)) = .ok ())
    (hbody : (net (listRequest c)).body = .arr toks)
    (hall : ∀ t ∈ toks, ∃ kvs, t = Json.obj kvs ∧ (jlookup "AccessorID" kvs).isSome = true) :
    get_tokens c net = ([listRequest c], .ok (toks.filterMap indexEntry)) ∧
    (∀ kvs, jlookup "AccessorID" kvs = some Json.null → indexEntry (.obj kvs) = none) ∧
    (∀ kvs acc, jlookup "AccessorID" kvs = some acc → acc ≠ Json.null →
      indexEntry (.obj kvs) = some (acc, .obj kvs)) := by
  refine ⟨?_, fun kvs h => by simp [indexEntry, h], fun kvs acc h hne => ?_⟩
  · simp only [get_tokens, hst, hbody]
    rw [buildIndex_eq_filterMap toks hall]
  · cases acc
    case null => exact absurd rfl hne
    all_goals simp [indexEntry, h]

theorem get_tokens_skips_null_accessors_witness :
    get_tokens cfgBase netC7b = ([listRequest cfgBase],
      .ok [(Json.str "A", Json.obj [("AccessorID", Json.str "A")])]) :=
  (get_tokens_skips_null_accessors cfgBase netC7b
    [Json.obj [("AccessorID", Json.null)], Json.obj [("AccessorID", Json.str "A")]]
    rfl rfl (by
      intro t ht
      rcases List.mem_cons.mp ht with rfl | ht2
      · exact ⟨_, rfl, rfl⟩
      · rcases List.mem_cons.mp ht2 with rfl | h3
        · exact ⟨_, rfl, rfl⟩
        · exact absurd h3 (List.not_mem_nil _))).1

/-- C8: when policy and role inputs are dicts, a service identity element
without a name (or not dict-shaped) makes the run fail with the ValueError
surfaced as a configuration error before any request is issued; likewise for
node identities once all service identities are well-formed. -/
theorem invalid_identity_fails_before_network (p : Params) (net : Net)
    (hroles : ∀ j ∈ p.roles, ∃ kvs, j = Json.obj kvs)
    (hpolicies : ∀ j ∈ p.policies, ∃ kvs, j = Json.obj kvs) :
    ((∃ j ∈ p.service_identities, identityInputHasName j = false) →
      runMain p net = ([], .failJson ("Configuration error: " ++ SERVICE_IDENTITY_ERR))) ∧
    ((∀ j ∈ p.service_identities, identityInputHasName j = true) →
      (∃ j ∈ p.node_identities, identityInputHasName j = false) →
      runMain p net = ([], .failJson ("Configuration error: " ++ NODE_IDENTITY_ERR))) := by
  obtain ⟨rs, hrs⟩ := mapExcept_ok RoleLink.ofInput p.roles
    (fun j hj => by obtain ⟨kvs, rfl⟩ := hroles j hj; exact ⟨⟨(jlookup "id" kvs).getD .null,
      (jlookup "name" kvs).getD .null⟩, rfl⟩)
  obtain ⟨ps, hps⟩ := mapExcept_ok PolicyLink.ofInput p.policies
    (fun j hj => by obtain ⟨kvs, rfl⟩ := hpolicies j hj; exact ⟨⟨(jlookup "id" kvs).getD .null,
      (jlookup "name" kvs).getD .null⟩, rfl⟩)
  constructor
  · rintro ⟨j0, hj0, hbad⟩
    have hsi : mapExcept ServiceIdentity.ofInput p.service_identities =
        .error (.valueError SERVICE_IDENTITY_ERR) := by
      apply mapExcept_error
      · intro x hx
        cases hx2 : identityInputHasName x
        · exact Or.inr (si_ofInput_err x hx2)
        · exact Or.inl (si_ofInput_ok x hx2)
      · exact ⟨j0, hj0, si_ofInput_err j0 hbad⟩
    simp [runMain, Configuration.ofParams, hrs, hps, hsi, Bind.bind, Except.bind,
      Pure.pure, Except.pure]
  · rintro hgood ⟨j0, hj0, hbad⟩
    obtain ⟨ss, hss⟩ := mapExcept_ok ServiceIdentity.ofInput p.service_identities
      (fun j hj => si_ofInput_ok j (hgood j hj))
    have hni : mapExcept NodeIdentity.ofInput p.node_identities =
        .error (.valueError NODE_IDENTITY_ERR) := by
      apply mapExcept_error
      · intro x hx
        cases hx2 : identityInputHasName x
        · exact Or.inr (ni_ofInput_err x hx2)
        · exact Or.inl (ni_ofInput_ok x hx2)
      · exact ⟨j0, hj0, ni_ofInput_err j0 hbad⟩
    simp [runMain, Configuration.ofParams, hrs, hps, hss, hni, Bind.bind, Except.bind,
      Pure.pure, Except.pure]

theorem invalid_identity_fails_before_network_witness :
    runMain pC8 netNull = ([], .failJson ("Configuration error: " ++ SERVICE_IDENTITY_ERR)) :=
  (invalid_identity_fails_before_network pC8 netNull
    (by intro j hj; exact absurd hj (List.not_mem_nil _))
    (by intro j hj; exact absurd hj (List.not_mem_nil _))).1
    ⟨Json.obj [("datacenters", Json.arr [Json.str "dc1"])], by simp [pC8, pBase], rfl⟩

/-- C9 counterexample: a policy link with neither id nor name is accepted by
the Configuration constructor, rendered as ID null and Name null, and the
run proceeds to issue network requests and create the token. -/
theorem policy_link_no_validation :
    Configuration.ofParams pC9 = .ok cfgC9 ∧
    cfgC9.policies.map PolicyLink.to_dict = [.obj [("ID", Json.null), ("Name", Json.null)]] ∧
    (runMain pC9 netC9).1.length = 3 ∧
    (runMain pC9 netC9).2 = .exitJson true CREATE_OPERATION
      (some (.obj [("AccessorID", Json.str "ID-1")])) :=
  ⟨rfl, rfl, rfl, rfl⟩

/-- C9 amended: a policy or role link element carrying neither id nor name is
not rejected; both constructors accept it and normalize it to null id and
null name, whose wire form is ID null, Name null. -/
theorem policy_link_passthrough (kvs : List (String × Json))
    (hid : jlookup "id" kvs = none) (hname : jlookup "name" kvs = none) :
    PolicyLink.ofInput (.obj kvs) = .ok ⟨Json.null, Json.null⟩ ∧
    RoleLink.ofInput (.obj kvs) = .ok ⟨Json.null, Json.null⟩ ∧
    PolicyLink.to_dict ⟨Json.null, Json.null⟩ = .obj [("ID", Json.null), ("Name", Json.null)] ∧
    RoleLink.to_dict ⟨Json.null, Json.null⟩ = .obj [("ID", Json.null), ("Name", Json.null)] := by
  refine ⟨?_, ?_, rfl, rfl⟩ <;> simp [PolicyLink.ofInput, RoleLink.ofInput, hid, hname]

theorem policy_link_passthrough_witness :
    PolicyLink.ofInput (.obj []) = .ok ⟨Json.null, Json.null⟩ ∧
    RoleLink.ofInput (.obj []) = .ok ⟨Json.null, Json.null⟩ :=
  ⟨(policy_link_passthrough [] rfl rfl).1, (policy_link_passthrough [] rfl rfl).2.1⟩

/-- C10 counterexample: the merged view lacks the Local key, yet because the
Description comparison already differs, the update returns an outcome with
changed = true instead of failing with a key-lookup error. -/
theorem update_missing_local_produces_outcome :
    jlookup "Local" tokC10 = none ∧
    (update_token tokC10 cfgBase netC10).2 =
      .ok ⟨true, UPDATE_OPERATION,
        some (.obj [("Description", Json.str "b"), ("Local", Json.bool false)])⟩ :=
  ⟨rfl, rfl⟩

/-- C10 amended: Description is read by direct lookup on both documents and
an absent key fails with a KeyError; Local is read by direct lookup only
when the Description comparison found no difference (the or-chain
short-circuits), in which case an absent Local key fails; when the
Descriptions differ the outcome is returned with changed = true even if
Local is absent. -/
theorem update_description_local_lookup_order (token r : List (String × Json))
    (c : Configuration) (net : Net) (acc : Json) (dat : List (String × Json))
    (hacc : jlookup "AccessorID" token = some acc)
    (hdat : update_token_data c = .ok dat)
    (hst : handle_consul_response_error (net (updateRequest c acc dat)) = .ok ())
    (hbody : (net (updateRequest c acc dat)).body = .obj r) :
    (jlookup "Description" token = none →
      (update_token token c net).2 = .error (.keyError "Description")) ∧
    (∀ d1, jlookup "Description" token = some d1 → jlookup "Description" r = none →
      (update_token token c net).2 = .error (.keyError "Description")) ∧
    (∀ d1 d2, jlookup "Description" token = some d1 → jlookup "Description" r = some d2 →
      pyEq d1 d2 = true → jlookup "Local" token = none →
      (update_token token c net).2 = .error (.keyError "Local")) ∧
    (∀ d1 d2, jlookup "Description" token = some d1 → jlookup "Description" r = some d2 →
      pyEq d1 d2 = false →
      (update_token token c net).2 = .ok ⟨true, UPDATE_OPERATION, some (.obj r)⟩) := by
  have hu := update_token_eq token c net acc dat hacc hdat hst
  refine ⟨fun h => ?_, fun d1 h1 h2 => ?_, fun d1 d2 h1 h2 h3 h4 => ?_,
    fun d1 d2 h1 h2 h3 => ?_⟩
  · rw [hu, hbody, computeChanged_missing_desc token (.obj r) h]
  · rw [hu, hbody, computeChanged_missing_desc2 token r d1 h1 h2]
  · rw [hu, hbody, computeChanged_missing_local token r d1 d2 h1 h2 h3 h4]
  · rw [hu, hbody, computeChanged_desc_differs token r d1 d2 h1 h2 h3]

theorem update_description_local_lookup_order_witness :
    (update_token tokC10 cfgBase netC10).2 =
      .ok ⟨true, UPDATE_OPERATION,
        some (.obj [("Description", Json.str "b"), ("Local", Json.bool false)])⟩ :=
  (update_description_local_lookup_order tokC10
    [("Description", Json.str "b"), ("Local", Json.bool false)]
    cfgBase netC10 (Json.str "ID-1") datC3 rfl rfl rfl rfl).2.2.2
    (Json.str "a") (Json.str "b") rfl rfl rfl
